import Mathlib

/-!
# NYZTrade client manager — verification development

Shallow embedding of `src/Nyztrade_client_manager.py` (single-file Python
program): the configuration store (`ConfigManager`), the SQLite-backed data
model (`DatabaseManager`), and the notification dispatcher
(`NotificationManager`), together with theorems about the specified
behaviour.

Modelling conventions:
* JSON values are the inductive `JVal`; Python dicts are association lists
  with insertion order, no duplicate keys (duplicate-freedom is a hypothesis
  where a proof needs it).
* Dates are day numbers (`Int`); `date('now', '+d days')` is `today + d`.
* SQLite tables are Lean lists of records; `AUTOINCREMENT` ids are
  `maxId + 1`; a `UNIQUE` violation is an `IntegrityError` result.
* Python exceptions are `Except String` values; a `try/except` block is an
  explicit catch on that monad.  Code paths where the Python program would
  raise on ill-typed data (indexing a non-dict during `set`, merging a
  non-dict top level) are modelled as `none` / `.error`.
-/

/-- A JSON value as handled by `json.load` / `json.dump`.  Python `dict`s
become ordered association lists (`obj`). -/
inductive JVal where
  | null : JVal
  | bool : Bool → JVal
  | num : Int → JVal
  | str : String → JVal
  | arr : List JVal → JVal
  | obj : List (String × JVal) → JVal

/-- Dictionary lookup: first binding of key `k` (Python dicts have unique
keys, so "first" is "the" binding). -/
def lookupF (k : String) (fs : List (String × JVal)) : Option JVal :=
  (fs.find? (fun p => p.1 = k)).map (fun p => p.2)

/-- Python `d[k] = v` on an ordered dict: replace the binding in place if the
key exists, else append a new binding at the end. -/
def setF (k : String) (v : JVal) : List (String × JVal) → List (String × JVal)
  | [] => [(k, v)]
  | (k', v') :: rest =>
    if k' = k then (k, v) :: rest else (k', v') :: setF k v rest

/-- `ConfigManager._merge_config(default, user)`: for each key of `default`,
if absent from `user` copy the default binding (appended, as Python dict
insertion does), and if both sides hold dicts merge them recursively;
`user` values win everywhere else.  Keys present only in `user` are kept. -/
def mergeFields (ds us : List (String × JVal)) : List (String × JVal) :=
  match ds with
  | [] => us
  | (k, v) :: ds' =>
    match lookupF k us with
    | none => mergeFields ds' (us ++ [(k, v)])
    | some u =>
      match v, u with
      | .obj df, .obj uf => mergeFields ds' (setF k (.obj (mergeFields df uf)) us)
      | _, _ => mergeFields ds' us
termination_by sizeOf ds
decreasing_by
  all_goals simp_wf
  all_goals omega

/-- The compiled-in `DEFAULT_CONFIG` dictionary of the program. -/
def DEFAULT_CONFIG : List (String × JVal) :=
  [("email", .obj
      [("smtp_server", .str "smtp.gmail.com"),
       ("smtp_port", .num 587),
       ("email_address", .str ""),
       ("email_password", .str ""),
       ("enabled", .bool false)]),
   ("whatsapp", .obj
      [("api_url", .str ""),
       ("api_key", .str ""),
       ("enabled", .bool false)]),
   ("notifications", .obj
      [("days_before_expiry", .num 1),
       ("send_time", .str "09:00"),
       ("enabled", .bool true)]),
   ("business", .obj
      [("name", .str "NYZTrade"),
       ("contact_phone", .str "+91-9999999999"),
       ("contact_email", .str "support@nyztrade.com"),
       ("website", .str "https://nyztrade.com"),
       ("address", .str "Kerala, India")]),
   ("database", .obj
      [("path", .str "premium_clients.db")])]

/-- What reading and parsing the config file can yield: the file is missing
(`FileNotFoundError`, caught by `load_config`), unparseable — which includes
the empty file — (`json.JSONDecodeError`, not caught), or parsed to a JSON
value. -/
inductive FileRead where
  | fileNotFound : FileRead
  | parseError : FileRead
  | parsed : JVal → FileRead

/-- `ConfigManager.load_config`: on `FileNotFoundError` return the defaults;
on successful parse of a JSON object, merge the defaults under the user
values.  A parse error propagates (only `FileNotFoundError` is caught), and a
parsed top-level non-object makes `_merge_config` raise a `TypeError` while
iterating/assigning into it. -/
def load_config : FileRead → Except String JVal
  | .fileNotFound => .ok (.obj DEFAULT_CONFIG)
  | .parseError => .error "json.JSONDecodeError"
  | .parsed (.obj fs) => .ok (.obj (mergeFields DEFAULT_CONFIG fs))
  | .parsed _ => .error "TypeError"

/-- `ConfigManager.get` with the path already split at the dots, restricted
to well-typed traversals: walk the nested dicts, returning the Python
default (`None`, here `none`) when a key is missing.  On a non-dict
intermediate the real `get` can raise `TypeError`; that raising behaviour
is modelled faithfully by `cfgGetE` below, of which this function is the
value projection on the non-raising paths. -/
def cfgGet : JVal → List String → Option JVal
  | c, [] => some c
  | .obj fs, k :: ks =>
    match lookupF k fs with
    | some v => cfgGet v ks
    | none => none
  | _, _ :: _ => none

/-- `ConfigManager.set` with the path already split at the dots: walk/create
intermediate dicts and write the final key.  `none` models the `TypeError`
Python raises when an intermediate key holds a non-dict. -/
def setPath : List String → JVal → List (String × JVal) → Option (List (String × JVal))
  | [], _, fs => some fs
  | [k], v, fs => some (setF k v fs)
  | k :: k' :: ks, v, fs =>
    match lookupF k fs with
    | some (.obj inner) =>
      (setPath (k' :: ks) v inner).map (fun fs' => setF k (.obj fs') fs)
    | some _ => none
    | none =>
      (setPath (k' :: ks) v []).map (fun fs' => setF k (.obj fs') fs)

/-- Python truthiness of a config value fetched by `get` (`None` and a
missing key are falsy, as are `False`, `0`, `""`, `[]`, `{}`). -/
def jTruthy : Option JVal → Bool
  | none => false
  | some .null => false
  | some (.bool b) => b
  | some (.num n) => n != 0
  | some (.str s) => s != ""
  | some (.arr l) => !l.isEmpty
  | some (.obj fs) => !fs.isEmpty

/-- Python `str()` of a scalar config value as interpolated into the message
templates (`str(None) = "None"`); container reprs are not relied upon by any
theorem and are abbreviated. -/
def jStr : Option JVal → String
  | none => "None"
  | some .null => "None"
  | some (.bool b) => if b then "True" else "False"
  | some (.num n) => toString n
  | some (.str s) => s
  | some (.arr _) => ""
  | some (.obj _) => ""

/-!
## Persistent store (`DatabaseManager` schema)

The four SQLite tables, as Lean records.  Dates are day numbers.
`price` / `amount_paid` are SQLite `REAL`; no claim depends on fractional
amounts, so they are carried as integers.
-/

/-- A row of the `clients` table. -/
structure Client where
  id : Int
  name : String
  email : String
  phone : String
  whatsapp : String
  registration_date : Int
  status : String
  notes : String
deriving DecidableEq, Repr

/-- A row of the `services` table. -/
structure Service where
  id : Int
  name : String
  description : String
  price : Int
  duration_days : Int
  status : String
deriving DecidableEq, Repr

/-- A row of the `subscriptions` table. -/
structure Subscription where
  id : Int
  client_id : Int
  service_id : Int
  start_date : Int
  end_date : Int
  amount_paid : Int
  payment_method : String
  transaction_id : String
  status : String
  auto_renewal : Bool
deriving DecidableEq, Repr

/-- A row of the `notifications` table (the `id` autoincrement column is
immaterial to the claims and omitted; rows are identified positionally in
the list). -/
structure NotifRow where
  client_id : Int
  service_name : String
  notification_type : String
  scheduled_date : Int
  sent_date : Int
  status : String
  message : String
deriving DecidableEq, Repr

/-- The database state: the four tables. -/
structure Store where
  clients : List Client
  services : List Service
  subscriptions : List Subscription
  notifications : List NotifRow
deriving DecidableEq, Repr

/-- A denormalized row of `DatabaseManager.get_expiring_subscriptions`
(`SELECT s.*, c.name, c.email, c.phone, c.whatsapp, sv.name, sv.description`):
the subscription together with its joined client and service rows. -/
structure ExpiringRow where
  sub : Subscription
  client : Client
  service : Service
deriving DecidableEq, Repr

/-- `DatabaseManager.get_expiring_subscriptions(days)`: inner join of
subscriptions with clients (`s.client_id = c.id`) and services
(`s.service_id = sv.id`), filtered by `s.status = 'Active'` and
`s.end_date = date('now', '+{} days'.format(days))`.  For negative `days`
the formatted modifier is `'+-N days'`, which SQLite rejects: `date()`
yields NULL and the comparison matches no row, so the query returns
nothing.  Ids are primary keys, so the first matching row is the joined
row. -/
def get_expiring_subscriptions (db : Store) (today : Int) (days : Int) : List ExpiringRow :=
  if days < 0 then []
  else
    db.subscriptions.filterMap fun s =>
      if s.status = "Active" && s.end_date = today + days then
        match db.clients.find? (fun c => c.id = s.client_id),
              db.services.find? (fun sv => sv.id = s.service_id) with
        | some c, some sv => some ⟨s, c, sv⟩
        | _, _ => none
      else none

/-- Next `AUTOINCREMENT` id for a list of already-used ids. -/
def nextId (ids : List Int) : Int :=
  (ids.foldl max 0) + 1

/-- The error SQLite raises on a `UNIQUE` constraint violation
(`sqlite3.IntegrityError`). -/
inductive SqlError where
  | integrityError : SqlError
deriving DecidableEq, Repr

/-- `INSERT INTO clients (name, email, phone, whatsapp, notes)`: the schema
declares `email TEXT UNIQUE NOT NULL`, so a duplicate email raises
`IntegrityError` and inserts nothing; otherwise the row is appended with a
fresh id and the column defaults (`registration_date CURRENT_DATE`,
`status 'Active'`). -/
def insert_client (db : Store) (today : Int)
    (name email phone whatsapp notes : String) : Except SqlError Store :=
  if db.clients.any (fun c => c.email = email) then
    .error .integrityError
  else
    .ok { db with clients := db.clients ++
      [{ id := nextId (db.clients.map Client.id),
         name := name, email := email, phone := phone, whatsapp := whatsapp,
         registration_date := today, status := "Active", notes := notes }] }

/-- What the add-client form reports back to the user. -/
inductive SubmitMsg where
  | success : String → SubmitMsg
  | failure : String → SubmitMsg
deriving DecidableEq, Repr

/-- The add-client form handler in `show_client_management`: requires name
and email non-empty, runs the insert, and catches `sqlite3.IntegrityError`
into a user-facing error message, leaving the database as it was. -/
def add_client_submit (db : Store) (today : Int)
    (name email phone whatsapp notes : String) : Store × SubmitMsg :=
  if name ≠ "" && email ≠ "" then
    match insert_client db today name email phone whatsapp notes with
    | .ok db' => (db', .success ("Client " ++ name ++ " added successfully!"))
    | .error .integrityError =>
      (db, .failure "Email already exists! Please use a different email address.")
  else
    (db, .failure "Name and Email are required fields!")

/-- The subscription row built by the create-subscription form:
`end_date = start_date + timedelta(days=service.duration_days)`, status from
the column default `'Active'`. -/
def newSubscription (db : Store) (clientId : Int) (sv : Service)
    (start amount : Int) (method txid : String) (autoRenew : Bool) : Subscription :=
  { id := nextId (db.subscriptions.map Subscription.id),
    client_id := clientId, service_id := sv.id,
    start_date := start, end_date := start + sv.duration_days,
    amount_paid := amount, payment_method := method, transaction_id := txid,
    status := "Active", auto_renewal := autoRenew }

/-- The submitted branch of the create-subscription form in
`show_subscription_management`: computes the end date from the selected
service's `duration_days` at creation time and inserts the row. -/
def create_subscription (db : Store) (clientId : Int) (sv : Service)
    (start amount : Int) (method txid : String) (autoRenew : Bool) : Store :=
  { db with subscriptions :=
      db.subscriptions ++ [newSubscription db clientId sv start amount method txid autoRenew] }

/-- The update branch of the edit-service form in `show_settings`:
`UPDATE services SET name, description, price, duration_days, status WHERE id`.
Only the `services` table is touched. -/
def update_service (db : Store) (sid : Int)
    (name description : String) (price duration : Int) (status : String) : Store :=
  { db with services := db.services.map fun sv =>
      if sv.id = sid then
        { sv with name := name, description := description, price := price,
                  duration_days := duration, status := status }
      else sv }

/-!
## Notification dispatcher (`NotificationManager`)

Transports are oracles: an email transport maps (recipient, subject, body)
to `ok ()` (delivered) or `error e` (a raised exception); a WhatsApp
transport maps (api url, api key, phone, message) to `ok code` (the HTTP
status of the POST) or `error e`.  Quantifying theorems over these oracles
covers every transport behaviour, including always-raising ones.
-/

/-- Outcome oracle for the SMTP session (connect, starttls, login,
sendmail): `ok ()` if the whole session succeeds, `error` for any raised
exception. -/
def EmailTransport : Type := String → String → String → Except String Unit

/-- Outcome oracle for `requests.post` to the WhatsApp API: `ok status`
for a completed request, `error` for a raised exception (timeout, bad url,
connection failure). -/
def WaTransport : Type := String → String → String → String → Except String Int

/-- The SQL day offset a `days_before_expiry` config value turns into when
formatted into `date('now', '+{} days')`: an integer formats to `'+N days'`
(negative integers give the invalid `'+-N days'`, which
`get_expiring_subscriptions` answers with no rows); a string of digits
formats like the corresponding number; any other value — including strings
with a sign, which format to invalid modifiers like `'+-3 days'` — makes
SQLite's `date()` yield NULL, matching no row. -/
def days_of_value : Option JVal → Option Int
  | some (.num n) => some n
  | some (.str s) => (s.toNat?).map Int.ofNat
  | _ => none

/-- `notifications.days_before_expiry`, read from the configuration and
converted to the SQL day offset. -/
def days_before_value (cfg : JVal) : Option Int :=
  days_of_value (cfgGet cfg ["notifications", "days_before_expiry"])

/-- The expiring rows a dispatcher run fetches. -/
def expiring_for (cfg : JVal) (db : Store) (today : Int) : List ExpiringRow :=
  match days_before_value cfg with
  | some n => get_expiring_subscriptions db today n
  | none => []

/-- `NotificationManager.create_email_message`: subject line and HTML body
(the Python triple-quoted literal, with config and row values substituted;
the literal's level of indentation whitespace is not reproduced, and
`end_date` renders as its day number). -/
def create_email_message (cfg : JVal) (r : ExpiringRow) : String × String :=
  let bname := jStr (cfgGet cfg ["business", "name"])
  let bphone := jStr (cfgGet cfg ["business", "contact_phone"])
  let bemail := jStr (cfgGet cfg ["business", "contact_email"])
  let baddr := jStr (cfgGet cfg ["business", "address"])
  let subject := bname ++ " - " ++ r.service.name ++ " Subscription Expiring Soon"
  let body :=
    "<html>\n<body style=\"font-family: Arial, sans-serif; line-height: 1.6; color: #333;\">\n" ++
    "<div style=\"max-width: 600px; margin: 0 auto; padding: 20px;\">\n" ++
    "<div style=\"background: linear-gradient(135deg, #667eea 0%, #764ba2 100%); color: white; padding: 20px; border-radius: 10px; text-align: center; margin-bottom: 20px;\">\n" ++
    "<h1 style=\"margin: 0; font-size: 24px;\">üìà " ++ bname ++ "</h1>\n" ++
    "<p style=\"margin: 10px 0 0 0; opacity: 0.9;\">Premium Trading & Analysis Services</p>\n</div>\n" ++
    "<h2 style=\"color: #667eea;\">Subscription Expiry Reminder</h2>\n" ++
    "<p>Dear <strong>" ++ r.client.name ++ "</strong>,</p>\n" ++
    "<p>We hope you\x27re enjoying our premium services. This is a friendly reminder that your subscription is about to expire:</p>\n" ++
    "<div style=\"background-color: #f8f9fa; padding: 20px; border-radius: 8px; margin: 20px 0; border-left: 4px solid #ffc107;\">\n" ++
    "<h3 style=\"color: #667eea; margin-top: 0;\">Service Details</h3>\n" ++
    "<p><strong>Service:</strong> " ++ r.service.name ++ "</p>\n" ++
    "<p><strong>Expiry Date:</strong> " ++ toString r.sub.end_date ++ "</p>\n" ++
    "<p><strong>Description:</strong> " ++ r.service.description ++ "</p>\n</div>\n" ++
    "<p>To continue enjoying uninterrupted access to our premium features, please renew your subscription before the expiry date.</p>\n" ++
    "<h3 style=\"color: #28a745;\">Why Renew with " ++ bname ++ "?</h3>\n" ++
    "<div style=\"background-color: #f8f9fa; padding: 15px; border-radius: 8px; margin: 15px 0;\">\n<ul style=\"margin: 0; padding-left: 20px;\">\n" ++
    "<li><strong>Advanced GEX/DEX Analysis:</strong> Real-time Gamma and Delta Exposure insights</li>\n" ++
    "<li><strong>Professional Trading Signals:</strong> NIFTY & BANKNIFTY options strategies</li>\n" ++
    "<li><strong>Exclusive Market Reports:</strong> Malayalam & English educational content</li>\n" ++
    "<li><strong>Priority Support:</strong> Direct access to expert guidance</li>\n" ++
    "<li><strong>Educational Resources:</strong> Continuous learning with market updates</li>\n</ul>\n</div>\n" ++
    "<div style=\"background: linear-gradient(135deg, #28a745 0%, #20c997 100%); color: white; padding: 20px; border-radius: 8px; text-align: center; margin: 30px 0;\">\n" ++
    "<h3 style=\"margin: 0 0 15px 0;\">Ready to Renew?</h3>\n" ++
    "<p style=\"margin: 5px 0;\"><strong>WhatsApp:</strong> <a href=\"https://wa.me/" ++ bphone.replace "+" "" ++ "\" style=\"color: white; text-decoration: none;\">" ++ bphone ++ "</a></p>\n" ++
    "<p style=\"margin: 5px 0;\"><strong>Email:</strong> <a href=\"mailto:" ++ bemail ++ "\" style=\"color: white; text-decoration: none;\">" ++ bemail ++ "</a></p>\n" ++
    "<p style=\"margin: 5px 0;\"><strong>YouTube:</strong> <a href=\"https://youtube.com/@NYZTrade\" style=\"color: white; text-decoration: none;\">NYZTrade Channel</a></p>\n</div>\n" ++
    "<p>Thank you for being a valued member of the " ++ bname ++ " community!</p>\n" ++
    "<div style=\"border-top: 2px solid #eee; padding-top: 20px; margin-top: 30px;\">\n" ++
    "<p style=\"margin: 0;\"><strong>" ++ bname ++ " Team</strong></p>\n" ++
    "<p style=\"margin: 5px 0; color: #666;\">Premium Trading & Analysis Services</p>\n" ++
    "<p style=\"margin: 5px 0; color: #666;\">" ++ baddr ++ "</p>\n</div>\n" ++
    "<hr style=\"margin: 20px 0; border: none; border-top: 1px solid #eee;\">\n" ++
    "<p style=\"font-size: 12px; color: #999; text-align: center; margin: 0;\">\nThis is an automated reminder. Please do not reply to this email.\n</p>\n</div>\n</body>\n</html>\n"
  (subject, body)

/-- `NotificationManager.create_whatsapp_message`: the plain-text template
with config and row values substituted (decorative glyphs reproduced as the
source file carries them; `end_date` renders as its day number). -/
def create_whatsapp_message (cfg : JVal) (r : ExpiringRow) : String :=
  let bname := jStr (cfgGet cfg ["business", "name"])
  let bphone := jStr (cfgGet cfg ["business", "contact_phone"])
  let bemail := jStr (cfgGet cfg ["business", "contact_email"])
  "üîî *" ++ bname ++ " Reminder*\n\n" ++
  "‡§®‡•á " ++ r.client.name ++ "!\n\n" ++
  "Your *" ++ r.service.name ++ "* subscription expires on *" ++ toString r.sub.end_date ++ "*.\n\n" ++
  "*Don\x27t miss out on:*\n" ++
  "• Advanced GEX/DEX Analysis\n" ++
  "• Professional Trading Signals  \n" ++
  "• Malayalam & English Content\n" ++
  "• Priority Expert Support\n" ++
  "• Continuous Market Education\n\n" ++
  "*Contact us to renew:*\n" ++
  bphone ++ "\n" ++
  bemail ++ "\n" ++
  "YouTube: @NYZTrade\n\n" ++
  "Thank you for choosing " ++ bname ++ "!\n\n" ++
  "_This is an automated reminder_"

/-- The success flag `send_email_notification` evaluates to (pure form of
`send_email_notificationE`). -/
def send_email_notification (cfg : JVal) (eT : EmailTransport)
    (toAddr subject body : String) : Bool :=
  if !jTruthy (cfgGet cfg ["email", "enabled"]) then false
  else
    match eT toAddr subject body with
    | .ok _ => true
    | .error _ => false

/-- The success flag `send_whatsapp_notification` evaluates to (pure form of
`send_whatsapp_notificationE`). -/
def send_whatsapp_notification (cfg : JVal) (wT : WaTransport)
    (phone message : String) : Bool :=
  if !jTruthy (cfgGet cfg ["whatsapp", "enabled"]) then false
  else
    match wT (jStr (cfgGet cfg ["whatsapp", "api_url"]))
             (jStr (cfgGet cfg ["whatsapp", "api_key"])) phone message with
    | .ok code => code = 200
    | .error _ => false

/-- Python string slicing `s[:n]`: the first `n` characters.  Stated over
the character list; `pyTruncate_eq_take` below identifies it with
`String.take`. -/
def pyTruncate (s : String) (n : Nat) : String :=
  ⟨s.data.take n⟩

/-- `NotificationManager.log_notification`: the inserted notifications row —
`scheduled_date` and `sent_date` both `datetime.now().date()`, and the
message truncated to its first 500 characters (`message[:500]`).  The Python
call sites in the dispatcher omit the message argument, so its default `""`
is what they pass. -/
def log_notification (today : Int) (client_id : Int)
    (service_name notification_type status message : String) : NotifRow :=
  { client_id := client_id, service_name := service_name,
    notification_type := notification_type,
    scheduled_date := today, sent_date := today,
    status := status, message := pyTruncate message 500 }

/-- Pure form of the dispatcher loop body (the catches in the two send
wrappers make every transport outcome a boolean). -/
def processRows (cfg : JVal) (today : Int) (eT : EmailTransport) (wT : WaTransport) :
    List ExpiringRow → List NotifRow
  | [] => []
  | r :: rest =>
    (if r.client.email ≠ "" && jTruthy (cfgGet cfg ["email", "enabled"]) then
       [log_notification today r.sub.client_id r.service.name "email"
         (if send_email_notification cfg eT r.client.email
              (create_email_message cfg r).1 (create_email_message cfg r).2
          then "sent" else "failed") ""]
     else []) ++
    (if r.client.whatsapp ≠ "" && jTruthy (cfgGet cfg ["whatsapp", "enabled"]) then
       [log_notification today r.sub.client_id r.service.name "whatsapp"
         (if send_whatsapp_notification cfg wT r.client.whatsapp
              (create_whatsapp_message cfg r)
          then "sent" else "failed") ""]
     else []) ++
    processRows cfg today eT wT rest

/-- The batch of notification rows one dispatcher run inserts (pure form of
`send_expiry_notificationsE`). -/
def expiryLogs (cfg : JVal) (db : Store) (today : Int)
    (eT : EmailTransport) (wT : WaTransport) : List NotifRow :=
  if !jTruthy (cfgGet cfg ["notifications", "enabled"]) then []
  else processRows cfg today eT wT (expiring_for cfg db today)

/-- One dispatcher run as a store transformer: the inserted log rows are
appended to the notifications table; no other table is written. -/
def run_dispatcher (cfg : JVal) (db : Store) (today : Int)
    (eT : EmailTransport) (wT : WaTransport) : Store :=
  { db with notifications := db.notifications ++ expiryLogs cfg db today eT wT }

/-!
## Spec-side definitions and concrete fixtures
-/

/-- The (client id, service name, channel) triple identifying a dispatch
attempt in the notification log. -/
def attemptOf (row : NotifRow) : Int × String × String :=
  (row.client_id, row.service_name, row.notification_type)

/-- Written from the spec's words, for comparison with the code's
dispatcher: "for each expiring subscription row, for each enabled channel
(email, WhatsApp) where the client has a corresponding contact value
non-empty", one attempt — after the global step 1 "if notifications are
globally disabled in config, no-op". -/
def claimed_attempts (cfg : JVal) (db : Store) (today : Int) : List (Int × String × String) :=
  if !jTruthy (cfgGet cfg ["notifications", "enabled"]) then []
  else
    (expiring_for cfg db today).flatMap fun r =>
      (if jTruthy (cfgGet cfg ["email", "enabled"]) && r.client.email ≠ "" then
        [(r.sub.client_id, r.service.name, "email")]
      else []) ++
      (if jTruthy (cfgGet cfg ["whatsapp", "enabled"]) && r.client.whatsapp ≠ "" then
        [(r.sub.client_id, r.service.name, "whatsapp")]
      else [])

/-- Is this JSON value an object (a Python `dict`)? -/
def isObj : JVal → Bool
  | .obj _ => true
  | _ => false

/-- The key-wise contract of `_merge_config`, per key: a key present on both
sides keeps the user value unless both values are dicts, which merge
recursively; a key on one side only keeps that side's value. -/
def mergeSpec : Option JVal → Option JVal → Option JVal
  | none, u => u
  | some d, none => some d
  | some d, some u =>
    match d, u with
    | .obj df, .obj uf => some (.obj (mergeFields df uf))
    | _, _ => some u

/-- The dotted paths of every leaf of `DEFAULT_CONFIG`, split at the dot. -/
def defaultLeafPaths : List (String × String) :=
  [("email", "smtp_server"), ("email", "smtp_port"), ("email", "email_address"),
   ("email", "email_password"), ("email", "enabled"),
   ("whatsapp", "api_url"), ("whatsapp", "api_key"), ("whatsapp", "enabled"),
   ("notifications", "days_before_expiry"), ("notifications", "send_time"),
   ("notifications", "enabled"),
   ("business", "name"), ("business", "contact_phone"), ("business", "contact_email"),
   ("business", "website"), ("business", "address"),
   ("database", "path")]

/-- Fixture configuration: the defaults with the WhatsApp channel switched
on and credentials set (email stays disabled, notifications enabled,
`days_before_expiry = 1`).  Spelled out value-by-value so that it evaluates
by `decide`. -/
def fixCfg : JVal :=
  .obj
    [("email", .obj
        [("smtp_server", .str "smtp.gmail.com"),
         ("smtp_port", .num 587),
         ("email_address", .str ""),
         ("email_password", .str ""),
         ("enabled", .bool false)]),
     ("whatsapp", .obj
        [("api_url", .str "https://api.example/send"),
         ("api_key", .str "k"),
         ("enabled", .bool true)]),
     ("notifications", .obj
        [("days_before_expiry", .num 1),
         ("send_time", .str "09:00"),
         ("enabled", .bool true)]),
     ("business", .obj
        [("name", .str "NYZTrade"),
         ("contact_phone", .str "+91-9999999999"),
         ("contact_email", .str "support@nyztrade.com"),
         ("website", .str "https://nyztrade.com"),
         ("address", .str "Kerala, India")]),
     ("database", .obj
        [("path", .str "premium_clients.db")])]

/-- Fixture clients: two with WhatsApp numbers, one without. -/
def fixClient1 : Client :=
  ⟨1, "Asha", "a@x.com", "+911000", "+911000", -10, "Active", ""⟩

/-- Second fixture client (has a WhatsApp number). -/
def fixClient2 : Client :=
  ⟨2, "Biju", "b@x.com", "+912000", "+912000", -10, "Active", ""⟩

/-- Third fixture client (no WhatsApp number). -/
def fixClient3 : Client :=
  ⟨3, "Devi", "c@x.com", "+913000", "", -10, "Active", ""⟩

/-- Fixture service (30-day duration). -/
def fixService : Service :=
  ⟨1, "EQUITY Premium", "Advanced equity analysis and trading signals", 5000, 30, "Active"⟩

/-- Fixture subscription of client 1, ending tomorrow (day 1). -/
def fixSub1 : Subscription := ⟨1, 1, 1, -29, 1, 5000, "UPI", "t1", "Active", false⟩

/-- Fixture subscription of client 2, ending tomorrow (day 1). -/
def fixSub2 : Subscription := ⟨2, 2, 1, -29, 1, 5000, "UPI", "t2", "Active", false⟩

/-- Fixture subscription of client 3, ending tomorrow (day 1). -/
def fixSub3 : Subscription := ⟨3, 3, 1, -29, 1, 5000, "UPI", "t3", "Active", false⟩

/-- Fixture subscription of client 1, ending the day after tomorrow
(day 2): expiring in 2 days, so invisible to a `days = 1` query. -/
def fixSub4 : Subscription := ⟨4, 1, 1, -28, 2, 5000, "UPI", "t4", "Active", false⟩

/-- Fixture store: three subscriptions expiring tomorrow (clients 1 and 2
have WhatsApp numbers, client 3 does not) and one expiring in two days. -/
def fixDb : Store :=
  ⟨[fixClient1, fixClient2, fixClient3], [fixService],
   [fixSub1, fixSub2, fixSub3, fixSub4], []⟩

/-- The joined expiring row for `fixSub1`. -/
def fixRow1 : ExpiringRow := ⟨fixSub1, fixClient1, fixService⟩

/-- A transport oracle whose SMTP session always succeeds. -/
def fixE : EmailTransport := fun _ _ _ => .ok ()

/-- A transport oracle whose WhatsApp POST always answers HTTP 200. -/
def fixW : WaTransport := fun _ _ _ _ => .ok 200

/-- Fixture subscription that ended yesterday (end date `-1` with
`today = 0`): Active, client and service present. -/
def negSub : Subscription := ⟨1, 1, 1, -31, -1, 5000, "UPI", "t0", "Active", false⟩

/-- Fixture store holding only `negSub`, for querying with a negative day
offset. -/
def negDb : Store := ⟨[fixClient1], [fixService], [negSub], []⟩

set_option maxRecDepth 8000

/-- `pyTruncate` is `String.take` (Python slicing is character-based). -/
theorem pyTruncate_eq_take (s : String) (n : Nat) : pyTruncate s n = s.take n :=
  (String.take_eq s n).symm

/-- A `log_notification` row built with the (defaulted) empty message, with
its truncation evaluated away. -/
theorem log_notification_empty_message (today cid : Int) (sname ntype st : String) :
    log_notification today cid sname ntype st "" =
      ⟨cid, sname, ntype, today, today, st, ""⟩ := rfl

/-- A negative day offset formats to an invalid SQLite modifier; the query
returns no rows. -/
theorem get_expiring_neg (db : Store) (today d : Int) (h : d < 0) :
    get_expiring_subscriptions db today d = [] := by
  unfold get_expiring_subscriptions
  rw [if_pos h]

/-- Membership in the expiring query at a non-negative day offset: exactly
the Active subscriptions with end date `today + d` whose client and
service rows the join finds. -/
theorem mem_expiring (db : Store) (today d : Int) (r : ExpiringRow) (hd : 0 ≤ d) :
    r ∈ get_expiring_subscriptions db today d ↔
      r.sub ∈ db.subscriptions ∧ r.sub.status = "Active" ∧ r.sub.end_date = today + d ∧
      db.clients.find? (fun c => c.id = r.sub.client_id) = some r.client ∧
      db.services.find? (fun sv => sv.id = r.sub.service_id) = some r.service := by
  unfold get_expiring_subscriptions
  rw [if_neg (by omega), List.mem_filterMap]
  constructor
  · rintro ⟨s, hs, hf⟩
    split at hf
    case isTrue hcond =>
      simp only [Bool.and_eq_true, decide_eq_true_eq] at hcond
      split at hf
      case h_1 c sv hc hsv =>
        cases hf
        exact ⟨hs, hcond.1, hcond.2, hc, hsv⟩
      case h_2 => cases hf
    case isFalse => cases hf
  · rintro ⟨hmem, hst, hend, hc, hsv⟩
    refine ⟨r.sub, hmem, ?_⟩
    rw [if_pos (by simp [hst, hend]), hc, hsv]

/-- Shape of every row the dispatcher loop inserts: empty message,
`sent`/`failed` status, both dates equal to the run date, and provenance
from one of the processed expiring rows over one of the two channels. -/
theorem mem_processRows_fields (cfg : JVal) (today : Int) (eT : EmailTransport)
    (wT : WaTransport) (l : List ExpiringRow) (row : NotifRow)
    (h : row ∈ processRows cfg today eT wT l) :
    row.message = "" ∧ (row.status = "sent" ∨ row.status = "failed") ∧
      row.scheduled_date = today ∧ row.sent_date = today ∧
      ∃ r ∈ l, row.client_id = r.sub.client_id ∧ row.service_name = r.service.name ∧
        (row.notification_type = "email" ∨ row.notification_type = "whatsapp") := by
  induction l with
  | nil => cases h
  | cons r rest ih =>
    unfold processRows at h
    rw [List.mem_append, List.mem_append, log_notification_empty_message,
        log_notification_empty_message] at h
    rcases h with (h | h) | h
    · split at h
      · rw [List.mem_singleton] at h
        subst h
        refine ⟨rfl, ?_, rfl, rfl, r, List.mem_cons_self r rest, rfl, rfl, Or.inl rfl⟩
        split
        · exact Or.inl rfl
        · exact Or.inr rfl
      · cases h
    · split at h
      · rw [List.mem_singleton] at h
        subst h
        refine ⟨rfl, ?_, rfl, rfl, r, List.mem_cons_self r rest, rfl, rfl, Or.inr rfl⟩
        split
        · exact Or.inl rfl
        · exact Or.inr rfl
      · cases h
    · obtain ⟨hm, hst, hsc, hsd, r', hr', hrest⟩ := ih h
      exact ⟨hm, hst, hsc, hsd, r', List.mem_cons_of_mem r hr', hrest⟩

/-- The attempts a loop run makes, as a function of the rows and the
channel gates alone (independent of the transports). -/
theorem processRows_attempts (cfg : JVal) (today : Int) (eT : EmailTransport)
    (wT : WaTransport) (l : List ExpiringRow) :
    (processRows cfg today eT wT l).map attemptOf =
      l.flatMap (fun r =>
        (if r.client.email ≠ "" && jTruthy (cfgGet cfg ["email", "enabled"]) then
          [(r.sub.client_id, r.service.name, "email")] else []) ++
        (if r.client.whatsapp ≠ "" && jTruthy (cfgGet cfg ["whatsapp", "enabled"]) then
          [(r.sub.client_id, r.service.name, "whatsapp")] else [])) := by
  induction l with
  | nil => rfl
  | cons r rest ih =>
    unfold processRows
    rw [List.flatMap_cons, List.map_append, List.map_append, ih]
    by_cases h1 : r.client.email = "" <;>
    by_cases h2 : jTruthy (cfgGet cfg ["email", "enabled"]) = true <;>
    by_cases h3 : r.client.whatsapp = "" <;>
    by_cases h4 : jTruthy (cfgGet cfg ["whatsapp", "enabled"]) = true <;>
    simp [h1, h2, h3, h4, attemptOf, log_notification]

/-- `mergeSpec` with no default binding keeps the user side. -/
theorem mergeSpec_none_left (u : Option JVal) : mergeSpec none u = u := by
  cases u <;> rfl

/-- Lookup on a cons cell. -/
theorem lookupF_cons (k k' : String) (v : JVal) (fs : List (String × JVal)) :
    lookupF k' ((k, v) :: fs) = if k = k' then some v else lookupF k' fs := by
  by_cases h : k = k' <;> simp [lookupF, List.find?_cons, h]

/-- A key absent from the key list looks up to nothing. -/
theorem lookupF_eq_none_of_not_mem (k : String) (fs : List (String × JVal))
    (h : k ∉ fs.map Prod.fst) : lookupF k fs = none := by
  induction fs with
  | nil => rfl
  | cons p rest ih =>
    rw [List.map_cons, List.mem_cons] at h
    push_neg at h
    cases p with
    | mk k' v =>
      rw [lookupF_cons, if_neg (fun hk => h.1 hk.symm)]
      exact ih h.2

/-- Lookup after appending one binding at the end. -/
theorem lookupF_append_single (k k' : String) (v : JVal) (us : List (String × JVal)) :
    lookupF k (us ++ [(k', v)]) =
      match lookupF k us with
      | some u => some u
      | none => if k' = k then some v else none := by
  induction us with
  | nil => simp [lookupF_cons, lookupF]
  | cons p rest ih =>
    cases p with
    | mk a b =>
      rw [List.cons_append, lookupF_cons, lookupF_cons]
      by_cases h : a = k
      · simp [h]
      · simp [h, ih]

/-- Lookup of the key just written by `setF`. -/
theorem lookupF_setF_self (k : String) (v : JVal) (fs : List (String × JVal)) :
    lookupF k (setF k v fs) = some v := by
  induction fs with
  | nil => simp [setF, lookupF_cons]
  | cons p rest ih =>
    cases p with
    | mk a b =>
      unfold setF
      by_cases h : a = k
      · simp [h, lookupF_cons]
      · simp [h, lookupF_cons, ih]

/-- `setF` leaves every other key unchanged. -/
theorem lookupF_setF_ne (k k' : String) (v : JVal) (fs : List (String × JVal))
    (h : k ≠ k') : lookupF k' (setF k v fs) = lookupF k' fs := by
  induction fs with
  | nil => simp [setF, lookupF_cons, h, lookupF]
  | cons p rest ih =>
    cases p with
    | mk a b =>
      unfold setF
      by_cases ha : a = k
      · subst ha
        simp [lookupF_cons, h]
      · rw [if_neg ha, lookupF_cons, lookupF_cons, ih]

/-- Key-wise characterisation of `_merge_config`: looking any key up in the
merged dict behaves as `mergeSpec` of the two lookups (user wins, defaults
fill gaps, two dicts merge recursively), provided the default dict has
no duplicate keys — which Python dicts guarantee. -/
theorem lookupF_mergeFields (ds us : List (String × JVal)) :
    ∀ k : String, (ds.map Prod.fst).Nodup →
      lookupF k (mergeFields ds us) = mergeSpec (lookupF k ds) (lookupF k us) := by
  induction ds, us using mergeFields.induct with
  | case1 us =>
    intro k _
    rw [mergeFields]
    exact (mergeSpec_none_left _).symm
  | case2 us k' v' rest hlook ih =>
    intro k hnd
    rw [List.map_cons] at hnd
    have hk' : k' ∉ rest.map Prod.fst := (List.nodup_cons.mp hnd).1
    have hnd' : (rest.map Prod.fst).Nodup := (List.nodup_cons.mp hnd).2
    have hstep : mergeFields ((k', v') :: rest) us = mergeFields rest (us ++ [(k', v')]) := by
      rw [mergeFields, hlook]
    rw [hstep, ih k hnd', lookupF_append_single, lookupF_cons]
    by_cases h : k' = k
    · subst h
      rw [lookupF_eq_none_of_not_mem _ _ hk', hlook]
      simp [mergeSpec, mergeSpec_none_left]
    · rw [if_neg h, if_neg h]
      cases hus : lookupF k us <;> simp [mergeSpec]
  | case3 us k' rest df uf hlook ih1 ih2 =>
    intro k hnd
    rw [List.map_cons] at hnd
    have hk' : k' ∉ rest.map Prod.fst := (List.nodup_cons.mp hnd).1
    have hnd' : (rest.map Prod.fst).Nodup := (List.nodup_cons.mp hnd).2
    have hstep : mergeFields ((k', JVal.obj df) :: rest) us
        = mergeFields rest (setF k' (JVal.obj (mergeFields df uf)) us) := by
      rw [mergeFields, hlook]
    rw [hstep, ih2 k hnd', lookupF_cons]
    by_cases h : k' = k
    · subst h
      rw [if_pos rfl, lookupF_eq_none_of_not_mem _ _ hk', lookupF_setF_self,
          mergeSpec_none_left, hlook]
      rfl
    · rw [if_neg h, lookupF_setF_ne _ _ _ _ h]
  | case4 us k' v' rest u hlook hno ih =>
    intro k hnd
    rw [List.map_cons] at hnd
    have hk' : k' ∉ rest.map Prod.fst := (List.nodup_cons.mp hnd).1
    have hnd' : (rest.map Prod.fst).Nodup := (List.nodup_cons.mp hnd).2
    have hstep : mergeFields ((k', v') :: rest) us = mergeFields rest us := by
      rw [mergeFields, hlook]
      cases v' <;> cases u <;> first
        | rfl
        | exact (hno _ _ rfl rfl).elim
    rw [hstep, ih k hnd', lookupF_cons]
    by_cases h : k' = k
    · subst h
      rw [if_pos rfl, lookupF_eq_none_of_not_mem _ _ hk', mergeSpec_none_left, hlook]
      cases v' <;> cases u <;> first
        | rfl
        | exact (hno _ _ rfl rfl).elim
    · rw [if_neg h]

/-- `get` on a two-level dotted path, written through the lookups. -/
theorem cfgGet_pair (fs : List (String × JVal)) (a b : String) :
    cfgGet (JVal.obj fs) [a, b] =
      match lookupF a fs with
      | some (.obj gs) => lookupF b gs
      | _ => none := by
  cases h : lookupF a fs with
  | none => simp [cfgGet, h]
  | some v =>
    cases v <;> simp [cfgGet, h]
    case obj gs =>
      cases hb : lookupF b gs <;> simp [cfgGet, hb]

/-- A present two-level path passes through an object at the first key. -/
theorem cfgGet_pair_isSome (fs : List (String × JVal)) (a b : String)
    (h : (cfgGet (JVal.obj fs) [a, b]).isSome) :
    ∃ gs w, lookupF a fs = some (JVal.obj gs) ∧ lookupF b gs = some w := by
  rw [cfgGet_pair] at h
  cases hl : lookupF a fs with
  | none => rw [hl] at h; simp at h
  | some v =>
    cases v <;> rw [hl] at h <;> simp at h
    case obj gs =>
      obtain ⟨w, hw⟩ := Option.isSome_iff_exists.mp (by simpa using h)
      exact ⟨gs, w, rfl, hw⟩

/-- After merging the defaults under a user tree, a default leaf path whose
user values exist reads back the user value (default leaves are scalars, so
the user side wins). -/
theorem merged_get_pair (us : List (String × JVal)) (sec key : String)
    (dsec : List (String × JVal))
    (hd : lookupF sec DEFAULT_CONFIG = some (JVal.obj dsec))
    (hnd : (dsec.map Prod.fst).Nodup)
    (dv : JVal) (hdv : lookupF key dsec = some dv) (hno : isObj dv = false)
    (usec : List (String × JVal)) (hu : lookupF sec us = some (JVal.obj usec))
    (uv : JVal) (huv : lookupF key usec = some uv) :
    cfgGet (JVal.obj (mergeFields DEFAULT_CONFIG us)) [sec, key] = some uv := by
  rw [cfgGet_pair, lookupF_mergeFields _ _ _ (by decide), hd, hu]
  show lookupF key (mergeFields dsec usec) = some uv
  rw [lookupF_mergeFields _ _ _ hnd, hdv, huv]
  cases dv <;> first
    | (cases uv <;> rfl)
    | simp [isObj] at hno

/-- Setting `email.smtp_port` then reloading preserves every present leaf
of a section other than `email`. -/
theorem c7_preserved_other_section
    (cf : List (String × JVal)) (w : JVal) (sec key : String)
    (hsec : sec ≠ "email")
    (dsec : List (String × JVal)) (hd : lookupF sec DEFAULT_CONFIG = some (JVal.obj dsec))
    (hnd : (dsec.map Prod.fst).Nodup)
    (dv : JVal) (hdv : lookupF key dsec = some dv) (hno : isObj dv = false)
    (hcs : (cfgGet (JVal.obj cf) [sec, key]).isSome) :
    cfgGet (JVal.obj (mergeFields DEFAULT_CONFIG (setF "email" w cf))) [sec, key]
      = cfgGet (JVal.obj cf) [sec, key] := by
  obtain ⟨gs, uv, hgs, huv⟩ := cfgGet_pair_isSome cf sec key hcs
  have husec : lookupF sec (setF "email" w cf) = some (JVal.obj gs) := by
    rw [lookupF_setF_ne "email" sec w cf (fun h => hsec h.symm)]
    exact hgs
  rw [merged_get_pair _ sec key dsec hd hnd dv hdv hno gs husec uv huv]
  rw [cfgGet_pair, hgs]
  exact huv.symm

/-- Setting `email.smtp_port` then reloading preserves every other present
leaf of the `email` section. -/
theorem c7_preserved_email_key
    (cf ef : List (String × JVal)) (key : String) (hkey : "smtp_port" ≠ key)
    (hef : lookupF "email" cf = some (JVal.obj ef))
    (dsec : List (String × JVal))
    (hd : lookupF "email" DEFAULT_CONFIG = some (JVal.obj dsec))
    (hnd : (dsec.map Prod.fst).Nodup)
    (dv : JVal) (hdv : lookupF key dsec = some dv) (hno : isObj dv = false)
    (hcs : (cfgGet (JVal.obj cf) ["email", key]).isSome) :
    cfgGet (JVal.obj (mergeFields DEFAULT_CONFIG
        (setF "email" (JVal.obj (setF "smtp_port" (JVal.num 465) ef)) cf))) ["email", key]
      = cfgGet (JVal.obj cf) ["email", key] := by
  obtain ⟨gs, uv, hgs, huv⟩ := cfgGet_pair_isSome cf "email" key hcs
  obtain rfl : ef = gs := JVal.obj.inj (Option.some.inj (hef.symm.trans hgs))
  have husec : lookupF "email"
      (setF "email" (JVal.obj (setF "smtp_port" (JVal.num 465) ef)) cf)
      = some (JVal.obj (setF "smtp_port" (JVal.num 465) ef)) := lookupF_setF_self _ _ _
  have huv' : lookupF key (setF "smtp_port" (JVal.num 465) ef) = some uv := by
    rw [lookupF_setF_ne _ _ _ _ hkey]
    exact huv
  rw [merged_get_pair _ "email" key dsec hd hnd dv hdv hno _ husec uv huv']
  rw [cfgGet_pair, hgs]
  exact huv.symm

/-!
## Claims
-/

/-- C1 counterexample: the claim quantifies over every days value `d`, but
for a negative `d` the formatted modifier `'+-N days'` is invalid SQLite
and the query returns no rows — here an Active subscription ending
yesterday (`today + (-1)`), with its client and service present, is absent
from `get_expiring_subscriptions (-1)`, falsifying the claimed
"returns exactly" at `d = -1`. -/
theorem claim_C1_counterexample :
    negSub ∈ negDb.subscriptions ∧ negSub.status = "Active" ∧
    negSub.end_date = 0 + (-1) ∧
    (∃ c ∈ negDb.clients, c.id = negSub.client_id) ∧
    (∃ sv ∈ negDb.services, sv.id = negSub.service_id) ∧
    get_expiring_subscriptions negDb 0 (-1) = [] := by
  decide

/-- C1 (amended): for every store and every non-negative day offset `d`,
`get_expiring_subscriptions d` contains (a joined row for) a subscription
`s` exactly when `s` is Active with end date `today + d` and its client and
service exist; a subscription ending `today + k` with `k ≠ d` is never in
the result — an exact-day match, not a range; and for negative `d` the
formatted date modifier is invalid SQLite, so the query returns no rows. -/
theorem claim_C1 (db : Store) (today d : Int) (s : Subscription) :
    (0 ≤ d →
      ((∃ r ∈ get_expiring_subscriptions db today d, r.sub = s) ↔
        s ∈ db.subscriptions ∧ s.status = "Active" ∧ s.end_date = today + d ∧
          (∃ c ∈ db.clients, c.id = s.client_id) ∧
          (∃ sv ∈ db.services, sv.id = s.service_id))) ∧
    (∀ k : Int, s.end_date = today + k → k ≠ d →
      ¬∃ r ∈ get_expiring_subscriptions db today d, r.sub = s) ∧
    (d < 0 → get_expiring_subscriptions db today d = []) := by
  refine ⟨fun hd => ?_, ?_, fun hneg => get_expiring_neg db today d hneg⟩
  · constructor
    · rintro ⟨r, hr, rfl⟩
      obtain ⟨hmem, hst, hend, hc, hsv⟩ := (mem_expiring db today d r hd).mp hr
      refine ⟨hmem, hst, hend,
        ⟨r.client, List.mem_of_find?_eq_some hc, ?_⟩,
        ⟨r.service, List.mem_of_find?_eq_some hsv, ?_⟩⟩
      · simpa using List.find?_some hc
      · simpa using List.find?_some hsv
    · rintro ⟨hmem, hst, hend, ⟨c, hcmem, hcid⟩, ⟨sv, hsvmem, hsvid⟩⟩
      obtain ⟨c', hc'⟩ : ∃ c', db.clients.find? (fun x => x.id = s.client_id) = some c' := by
        rw [← Option.isSome_iff_exists, List.find?_isSome]
        exact ⟨c, hcmem, by simp [hcid]⟩
      obtain ⟨sv', hsv'⟩ : ∃ sv', db.services.find? (fun x => x.id = s.service_id) = some sv' := by
        rw [← Option.isSome_iff_exists, List.find?_isSome]
        exact ⟨sv, hsvmem, by simp [hsvid]⟩
      exact ⟨⟨s, c', sv'⟩,
        (mem_expiring db today d ⟨s, c', sv'⟩ hd).mpr ⟨hmem, hst, hend, hc', hsv'⟩, rfl⟩
  · rintro k hk hkd ⟨r, hr, rfl⟩
    by_cases hd : 0 ≤ d
    · obtain ⟨-, -, hend, -, -⟩ := (mem_expiring db today d r hd).mp hr
      exact hkd (by omega)
    · rw [get_expiring_neg db today d (by omega)] at hr
      cases hr

/-- C1 witness: with `d = 1`, the fixture subscription ending tomorrow is
in the result, the one ending in 2 days is not, and with `d = -1` the
query over `negDb` is empty. -/
theorem claim_C1_witness :
    (0 : Int) ≤ 1 ∧
    (∃ r ∈ get_expiring_subscriptions fixDb 0 1, r.sub = fixSub1) ∧
    fixSub4.end_date = (0 : Int) + 2 ∧ (2 : Int) ≠ 1 ∧
    (¬∃ r ∈ get_expiring_subscriptions fixDb 0 1, r.sub = fixSub4) ∧
    (-1 : Int) < 0 ∧ get_expiring_subscriptions negDb 0 (-1) = [] :=
  ⟨by decide, ((claim_C1 fixDb 0 1 fixSub1).1 (by decide)).mpr (by decide),
   by decide, by decide,
   (claim_C1 fixDb 0 1 fixSub4).2.1 2 (by decide) (by decide),
   by decide, (claim_C1 negDb 0 (-1) negSub).2.2 (by decide)⟩

/-- C2: in every dispatcher run, a channel is attempted for an expiring
subscription exactly when the channel is enabled in the configuration and
the client's contact value is non-empty (the attempts, projected from the
inserted log rows, equal the list the spec describes); and against the
fixture of 3 expiring subscriptions of which 2 have WhatsApp numbers, with
email disabled and WhatsApp enabled, the run produces exactly 2 rows with
channel `whatsapp` and no `email` rows. -/
theorem claim_C2 :
    (∀ (cfg : JVal) (db : Store) (today : Int) (eT : EmailTransport) (wT : WaTransport),
      (expiryLogs cfg db today eT wT).map attemptOf = claimed_attempts cfg db today) ∧
    (expiryLogs fixCfg fixDb 0 fixE fixW).countP
      (fun row => row.notification_type = "whatsapp") = 2 ∧
    (expiryLogs fixCfg fixDb 0 fixE fixW).countP
      (fun row => row.notification_type = "email") = 0 := by
  refine ⟨?_, by decide, by decide⟩
  intro cfg db today eT wT
  unfold expiryLogs claimed_attempts
  cases hb : jTruthy (cfgGet cfg ["notifications", "enabled"])
  · simp
  · simp only [hb, Bool.not_true, Bool.false_eq_true, if_false]
    rw [processRows_attempts]
    refine List.flatMap_congr ?_
    intro r hr
    by_cases h1 : r.client.email = "" <;>
    by_cases h2 : jTruthy (cfgGet cfg ["email", "enabled"]) = true <;>
    by_cases h3 : r.client.whatsapp = "" <;>
    by_cases h4 : jTruthy (cfgGet cfg ["whatsapp", "enabled"]) = true <;>
    simp [h1, h2, h3, h4]

/-- C4 counterexample: the claim that every dispatch attempt logs a
truncated copy of the rendered message body is false on the code — in the
fixture run the attempt for the first expiring row logs the message `""`
(both rows do), while the 500-character truncation of the rendered WhatsApp
body for that row is not `""` (the dispatcher never passes the body to
`log_notification`). -/
theorem claim_C4_counterexample :
    (expiring_for fixCfg fixDb 0).head? = some fixRow1 ∧
    (expiryLogs fixCfg fixDb 0 fixE fixW).map NotifRow.message = ["", ""] ∧
    pyTruncate (create_whatsapp_message fixCfg fixRow1) 500 ≠ "" := by
  refine ⟨by decide, by decide, ?_⟩
  have hne : create_whatsapp_message fixCfg fixRow1 ≠ "" := by
    simp only [create_whatsapp_message]
    intro hc
    have h2 := congrArg String.length hc
    simp [String.length_append] at h2
    exact absurd h2.2 (by decide)
  intro hc
  apply hne
  have h1 : (create_whatsapp_message fixCfg fixRow1).data.take 500 = [] :=
    congrArg String.data hc
  rcases List.take_eq_nil_iff.mp h1 with h | h
  · exact absurd h (by decide)
  · exact congrArg String.mk h

/-- C4 (amended): every notification-log row inserted by a dispatcher run
records the client id, the service name, the channel and the outcome status
(`sent`/`failed`); the message field is `log_notification`'s 500-character
truncation of its message argument, but the dispatcher's call sites omit
that argument, so every row stores the empty string rather than a copy of
the rendered body. -/
theorem claim_C4_amended (cfg : JVal) (db : Store) (today : Int)
    (eT : EmailTransport) (wT : WaTransport) (row : NotifRow)
    (h : row ∈ expiryLogs cfg db today eT wT) :
    row.message = "" ∧ (row.status = "sent" ∨ row.status = "failed") ∧
    ∃ r ∈ expiring_for cfg db today, row.client_id = r.sub.client_id ∧
      row.service_name = r.service.name ∧
      (row.notification_type = "email" ∨ row.notification_type = "whatsapp") := by
  unfold expiryLogs at h
  split at h
  · cases h
  · obtain ⟨hm, hst, -, -, hrest⟩ := mem_processRows_fields _ _ _ _ _ _ h
    exact ⟨hm, hst, hrest⟩

/-- C4 witness: the first fixture log row is in the run's output, stores
the empty message and a `sent`/`failed` status. -/
theorem claim_C4_witness :
    (⟨1, "EQUITY Premium", "whatsapp", 0, 0, "sent", ""⟩ : NotifRow)
        ∈ expiryLogs fixCfg fixDb 0 fixE fixW ∧
    (⟨1, "EQUITY Premium", "whatsapp", 0, 0, "sent", ""⟩ : NotifRow).message = "" ∧
    ((⟨1, "EQUITY Premium", "whatsapp", 0, 0, "sent", ""⟩ : NotifRow).status = "sent" ∨
     (⟨1, "EQUITY Premium", "whatsapp", 0, 0, "sent", ""⟩ : NotifRow).status = "failed") :=
  ⟨by decide,
   (claim_C4_amended fixCfg fixDb 0 fixE fixW
     ⟨1, "EQUITY Premium", "whatsapp", 0, 0, "sent", ""⟩ (by decide)).1,
   (claim_C4_amended fixCfg fixDb 0 fixE fixW
     ⟨1, "EQUITY Premium", "whatsapp", 0, 0, "sent", ""⟩ (by decide)).2.1⟩

/-- C5: `send_expiry_notifications` is not idempotent — a second run on the
same day over the same state re-sends and re-logs exactly the rows of the
first run (no "already notified today" check reads the notifications
table), the table after two runs carries both batches, every row's count
doubles, and with a non-empty batch the second run strictly grows the
table. -/
theorem claim_C5 (cfg : JVal) (db : Store) (today : Int)
    (eT : EmailTransport) (wT : WaTransport) :
    expiryLogs cfg (run_dispatcher cfg db today eT wT) today eT wT
      = expiryLogs cfg db today eT wT ∧
    (run_dispatcher cfg (run_dispatcher cfg db today eT wT) today eT wT).notifications
      = db.notifications ++ expiryLogs cfg db today eT wT ++ expiryLogs cfg db today eT wT ∧
    (∀ row : NotifRow,
      (expiryLogs cfg db today eT wT ++ expiryLogs cfg db today eT wT).count row
        = 2 * (expiryLogs cfg db today eT wT).count row) ∧
    (expiryLogs cfg db today eT wT ≠ [] →
      (run_dispatcher cfg (run_dispatcher cfg db today eT wT) today eT wT).notifications
        ≠ (run_dispatcher cfg db today eT wT).notifications) := by
  have h1 : expiryLogs cfg (run_dispatcher cfg db today eT wT) today eT wT
      = expiryLogs cfg db today eT wT := rfl
  have h2 : (run_dispatcher cfg (run_dispatcher cfg db today eT wT) today eT wT).notifications
      = (run_dispatcher cfg db today eT wT).notifications
        ++ expiryLogs cfg (run_dispatcher cfg db today eT wT) today eT wT := rfl
  have h3 : (run_dispatcher cfg db today eT wT).notifications
      = db.notifications ++ expiryLogs cfg db today eT wT := rfl
  refine ⟨h1, ?_, ?_, ?_⟩
  · rw [h2, h1, h3]
  · intro row
    rw [List.count_append]
    omega
  · intro hne heq
    rw [h2, h1, h3] at heq
    have hlen := congrArg List.length heq
    simp only [List.length_append] at hlen
    exact hne (List.eq_nil_of_length_eq_zero (by omega))

/-- C5 witness: the fixture run inserts a non-empty batch, so the second
run observably changes the notifications table again. -/
theorem claim_C5_witness :
    expiryLogs fixCfg fixDb 0 fixE fixW ≠ [] ∧
    (run_dispatcher fixCfg (run_dispatcher fixCfg fixDb 0 fixE fixW) 0 fixE fixW).notifications
      ≠ (run_dispatcher fixCfg fixDb 0 fixE fixW).notifications :=
  ⟨by decide, (claim_C5 fixCfg fixDb 0 fixE fixW).2.2.2 (by decide)⟩

/-- C6 counterexample: the claim that a malformed (or empty) config file
yields the defaults without raising is false on the code — a parse failure
propagates out of `load_config` (only `FileNotFoundError` is caught), so
the result is an error, not the default tree. -/
theorem claim_C6_counterexample :
    load_config FileRead.parseError ≠ Except.ok (JVal.obj DEFAULT_CONFIG) ∧
    (load_config FileRead.parseError).isOk = false := by
  constructor
  · simp [load_config]
  · rfl

/-- C6 (amended): `load_config` returns the compiled-in defaults when the
file is missing; a present well-formed object file is deep-merged key-wise
over the defaults — user values win, keys missing from the file fall back
to the defaults, and nested objects merge key-wise rather than being
replaced wholesale (the `mergeSpec` characterisation) — while an empty or
malformed file makes the JSON parse error propagate instead of yielding
defaults. -/
theorem claim_C6_amended :
    load_config FileRead.fileNotFound = Except.ok (JVal.obj DEFAULT_CONFIG) ∧
    (∀ us, load_config (FileRead.parsed (JVal.obj us))
        = Except.ok (JVal.obj (mergeFields DEFAULT_CONFIG us))) ∧
    (∀ us k, lookupF k (mergeFields DEFAULT_CONFIG us)
        = mergeSpec (lookupF k DEFAULT_CONFIG) (lookupF k us)) ∧
    (load_config FileRead.parseError).isOk = false :=
  ⟨rfl, fun _ => rfl,
   fun us k => lookupF_mergeFields DEFAULT_CONFIG us k (by decide), rfl⟩

/-- C7: for every starting configuration tree that carries all the default
leaves, setting `email.smtp_port` to 465, saving, and reloading from the
saved file yields a configuration in which `get "email.smtp_port"` is 465
and every other default leaf still reads its prior value. -/
theorem claim_C7 (cf : List (String × JVal))
    (hcomplete : ∀ p ∈ defaultLeafPaths, (cfgGet (JVal.obj cf) [p.1, p.2]).isSome) :
    ∃ cf465,
      setPath ["email", "smtp_port"] (JVal.num 465) cf = some cf465 ∧
      load_config (FileRead.parsed (JVal.obj cf465))
        = Except.ok (JVal.obj (mergeFields DEFAULT_CONFIG cf465)) ∧
      cfgGet (JVal.obj (mergeFields DEFAULT_CONFIG cf465)) ["email", "smtp_port"]
        = some (JVal.num 465) ∧
      ∀ p ∈ defaultLeafPaths, p ≠ ("email", "smtp_port") →
        cfgGet (JVal.obj (mergeFields DEFAULT_CONFIG cf465)) [p.1, p.2]
          = cfgGet (JVal.obj cf) [p.1, p.2] := by
  obtain ⟨ef, pv, hef, hpv⟩ := cfgGet_pair_isSome cf "email" "smtp_port"
    (hcomplete ("email", "smtp_port") (by decide))
  refine ⟨setF "email" (JVal.obj (setF "smtp_port" (JVal.num 465) ef)) cf, ?_, rfl, ?_, ?_⟩
  · simp [setPath, hef]
  · rw [cfgGet_pair, lookupF_mergeFields _ _ _ (by decide), lookupF_setF_self,
        show lookupF "email" DEFAULT_CONFIG = some (JVal.obj
          [("smtp_server", JVal.str "smtp.gmail.com"), ("smtp_port", JVal.num 587),
           ("email_address", JVal.str ""), ("email_password", JVal.str ""),
           ("enabled", JVal.bool false)]) from rfl]
    show lookupF "smtp_port"
        (mergeFields
          [("smtp_server", JVal.str "smtp.gmail.com"), ("smtp_port", JVal.num 587),
           ("email_address", JVal.str ""), ("email_password", JVal.str ""),
           ("enabled", JVal.bool false)]
          (setF "smtp_port" (JVal.num 465) ef)) = some (JVal.num 465)
    rw [lookupF_mergeFields _ _ _ (by decide), lookupF_setF_self]
    rfl
  · intro p hp hne
    simp only [defaultLeafPaths, List.mem_cons, List.not_mem_nil, or_false] at hp
    rcases hp with rfl | rfl | rfl | rfl | rfl | rfl | rfl | rfl | rfl | rfl | rfl | rfl |
      rfl | rfl | rfl | rfl | rfl
    · exact c7_preserved_email_key cf ef _ (by decide) hef _ rfl (by decide) _ rfl
        (by decide) (hcomplete ("email", "smtp_server") (by decide))
    · exact absurd rfl hne
    · exact c7_preserved_email_key cf ef _ (by decide) hef _ rfl (by decide) _ rfl
        (by decide) (hcomplete ("email", "email_address") (by decide))
    · exact c7_preserved_email_key cf ef _ (by decide) hef _ rfl (by decide) _ rfl
        (by decide) (hcomplete ("email", "email_password") (by decide))
    · exact c7_preserved_email_key cf ef _ (by decide) hef _ rfl (by decide) _ rfl
        (by decide) (hcomplete ("email", "enabled") (by decide))
    · exact c7_preserved_other_section cf _ _ _ (by decide) _ rfl (by decide) _ rfl
        (by decide) (hcomplete _ (by decide))
    · exact c7_preserved_other_section cf _ _ _ (by decide) _ rfl (by decide) _ rfl
        (by decide) (hcomplete _ (by decide))
    · exact c7_preserved_other_section cf _ _ _ (by decide) _ rfl (by decide) _ rfl
        (by decide) (hcomplete _ (by decide))
    · exact c7_preserved_other_section cf _ _ _ (by decide) _ rfl (by decide) _ rfl
        (by decide) (hcomplete _ (by decide))
    · exact c7_preserved_other_section cf _ _ _ (by decide) _ rfl (by decide) _ rfl
        (by decide) (hcomplete _ (by decide))
    · exact c7_preserved_other_section cf _ _ _ (by decide) _ rfl (by decide) _ rfl
        (by decide) (hcomplete _ (by decide))
    · exact c7_preserved_other_section cf _ _ _ (by decide) _ rfl (by decide) _ rfl
        (by decide) (hcomplete _ (by decide))
    · exact c7_preserved_other_section cf _ _ _ (by decide) _ rfl (by decide) _ rfl
        (by decide) (hcomplete _ (by decide))
    · exact c7_preserved_other_section cf _ _ _ (by decide) _ rfl (by decide) _ rfl
        (by decide) (hcomplete _ (by decide))
    · exact c7_preserved_other_section cf _ _ _ (by decide) _ rfl (by decide) _ rfl
        (by decide) (hcomplete _ (by decide))
    · exact c7_preserved_other_section cf _ _ _ (by decide) _ rfl (by decide) _ rfl
        (by decide) (hcomplete _ (by decide))
    · exact c7_preserved_other_section cf _ _ _ (by decide) _ rfl (by decide) _ rfl
        (by decide) (hcomplete _ (by decide))

/-- C7 witness: the defaults themselves form a complete starting
configuration, and the set/save/reload round trip on them satisfies the
claim. -/
theorem claim_C7_witness :
    (∀ p ∈ defaultLeafPaths, (cfgGet (JVal.obj DEFAULT_CONFIG) [p.1, p.2]).isSome) ∧
    (∃ cf465,
      setPath ["email", "smtp_port"] (JVal.num 465) DEFAULT_CONFIG = some cf465 ∧
      load_config (FileRead.parsed (JVal.obj cf465))
        = Except.ok (JVal.obj (mergeFields DEFAULT_CONFIG cf465)) ∧
      cfgGet (JVal.obj (mergeFields DEFAULT_CONFIG cf465)) ["email", "smtp_port"]
        = some (JVal.num 465) ∧
      ∀ p ∈ defaultLeafPaths, p ≠ ("email", "smtp_port") →
        cfgGet (JVal.obj (mergeFields DEFAULT_CONFIG cf465)) [p.1, p.2]
          = cfgGet (JVal.obj DEFAULT_CONFIG) [p.1, p.2]) :=
  ⟨by decide, claim_C7 DEFAULT_CONFIG (by decide)⟩

/-- C8: adding a client whose email already exists in the clients table
fails with the SQLite uniqueness violation, which the form catches into a
user-facing error message; the database is left unchanged and no duplicate
row is created. -/
theorem claim_C8 (db : Store) (today : Int) (name email phone whatsapp notes : String)
    (hname : name ≠ "") (hemail : email ≠ "")
    (hdup : ∃ c ∈ db.clients, c.email = email) :
    add_client_submit db today name email phone whatsapp notes
      = (db, .failure "Email already exists! Please use a different email address.") ∧
    (add_client_submit db today name email phone whatsapp notes).1.clients = db.clients := by
  obtain ⟨c, hcmem, hce⟩ := hdup
  have hany : db.clients.any (fun x => x.email = email) = true := by
    rw [List.any_eq_true]
    exact ⟨c, hcmem, by simp [hce]⟩
  have heq : add_client_submit db today name email phone whatsapp notes
      = (db, .failure "Email already exists! Please use a different email address.") := by
    unfold add_client_submit insert_client
    rw [if_pos (by simp [hname, hemail]), if_pos hany]
  exact ⟨heq, by rw [heq]⟩

/-- C8 witness: adding a client with the fixture's already-present email
is rejected with the user-facing message and leaves the store unchanged. -/
theorem claim_C8_witness :
    ("Dev" : String) ≠ "" ∧ ("a@x.com" : String) ≠ "" ∧
    (∃ c ∈ fixDb.clients, c.email = "a@x.com") ∧
    add_client_submit fixDb 0 "Dev" "a@x.com" "" "" ""
      = (fixDb, .failure "Email already exists! Please use a different email address.") :=
  ⟨by decide, by decide, by decide,
   (claim_C8 fixDb 0 "Dev" "a@x.com" "" "" "" (by decide) (by decide) (by decide)).1⟩

/-- C9: creating a subscription appends a row whose end date is the start
date plus the selected service's `duration_days`, fixed at creation; a
later `update_service` (including a change to `duration_days`) writes only
the services table and leaves every existing subscription row — hence its
end date — unchanged. -/
theorem claim_C9 (db : Store) (clientId : Int) (sv : Service) (start amount : Int)
    (method txid : String) (autoRenew : Bool) :
    (create_subscription db clientId sv start amount method txid autoRenew).subscriptions
      = db.subscriptions ++ [newSubscription db clientId sv start amount method txid autoRenew] ∧
    (newSubscription db clientId sv start amount method txid autoRenew).end_date
      = start + sv.duration_days ∧
    ∀ (db2 : Store) (sid : Int) (n d : String) (p dur : Int) (st : String),
      (update_service db2 sid n d p dur st).subscriptions = db2.subscriptions :=
  ⟨rfl, rfl, fun _ _ _ _ _ _ _ => rfl⟩

/-- C10: every notification row a dispatcher run inserts has status exactly
`sent` or `failed` — never the schema default `Pending` — and its
`scheduled_date` equals its `sent_date`, both being the run date. -/
theorem claim_C10 (cfg : JVal) (db : Store) (today : Int)
    (eT : EmailTransport) (wT : WaTransport) (row : NotifRow)
    (h : row ∈ expiryLogs cfg db today eT wT) :
    (row.status = "sent" ∨ row.status = "failed") ∧ row.status ≠ "Pending" ∧
    row.scheduled_date = today ∧ row.sent_date = today := by
  unfold expiryLogs at h
  split at h
  · cases h
  · obtain ⟨-, hst, hsc, hsd, -⟩ := mem_processRows_fields _ _ _ _ _ _ h
    refine ⟨hst, ?_, hsc, hsd⟩
    rcases hst with h' | h' <;> simp [h']

/-- C10 witness: a concrete row of the fixture run satisfies the
invariant. -/
theorem claim_C10_witness :
    (⟨2, "EQUITY Premium", "whatsapp", 0, 0, "sent", ""⟩ : NotifRow)
        ∈ expiryLogs fixCfg fixDb 0 fixE fixW ∧
    (((⟨2, "EQUITY Premium", "whatsapp", 0, 0, "sent", ""⟩ : NotifRow).status = "sent" ∨
      (⟨2, "EQUITY Premium", "whatsapp", 0, 0, "sent", ""⟩ : NotifRow).status = "failed") ∧
     (⟨2, "EQUITY Premium", "whatsapp", 0, 0, "sent", ""⟩ : NotifRow).status ≠ "Pending" ∧
     (⟨2, "EQUITY Premium", "whatsapp", 0, 0, "sent", ""⟩ : NotifRow).scheduled_date = 0 ∧
     (⟨2, "EQUITY Premium", "whatsapp", 0, 0, "sent", ""⟩ : NotifRow).sent_date = 0) :=
  ⟨by decide,
   claim_C10 fixCfg fixDb 0 fixE fixW
     ⟨2, "EQUITY Premium", "whatsapp", 0, 0, "sent", ""⟩ (by decide)⟩
